import Mathlib

/-!
Shallow embedding of `src/backend/login-backend/server.js`, a minimal
authentication backend: a flat-file user store (`users.json`), a login
endpoint issuing JWT bearer tokens, a token-verification middleware, a
protected route, and a profile-update endpoint.

External effects are made explicit: the file system is a `FileState`
(the parse outcome of `users.json`), bcrypt is passed in as comparison
and hashing functions, and a JWT token is a record carrying its payload,
signing secret and expiry timestamp, with the string codec of the token
abstracted as a `decode` function given to the middleware.
-/

/-- A record of the flat-file user store `users.json`: a username, a
bcrypt password hash, and an email address. -/
structure User where
  username : String
  password : String
  email : String
deriving DecidableEq, Repr

/-- The observable state of `users.json`: `some l` when the file reads and
parses as the user list `l`, `none` when reading or parsing fails. -/
abbrev FileState := Option (List User)

/-- `readUsers` from server.js: returns the parsed user list, and on any
read or parse error catches the exception and returns the empty list. -/
def readUsers (fs : FileState) : List User :=
  fs.getD []

/-- The payload signed into a token by the login endpoint:
`{ username: user.username }`. -/
structure Payload where
  username : String
deriving DecidableEq, Repr

/-- A JWT as observed through the `jsonwebtoken` library: the signed
payload, the secret it was signed with, and the expiry timestamp (in
seconds). -/
structure SignedToken where
  payload : Payload
  secret : String
  exp : Nat
deriving DecidableEq, Repr

/-- `jwt.sign(payload, secret, { expiresIn: '1h' })` at current time
`now` (seconds): the token expires 3600 seconds later. -/
def jwtSign (p : Payload) (secret : String) (now : Nat) : SignedToken :=
  { payload := p, secret := secret, exp := now + 3600 }

/-- `jwt.verify(token, secret)` at current time `now`: succeeds with the
payload exactly when the token was signed with the same secret and has
not expired; otherwise it reports an error (`none`). -/
def jwtVerify (t : SignedToken) (secret : String) (now : Nat) : Option Payload :=
  if t.secret = secret ∧ now < t.exp then some t.payload else none

/-- Token extraction in `authenticateToken`:
`const token = authHeader && authHeader.split(' ')[1]` followed by the
falsiness test `if (!token)`. A missing header, a header with no second
space-separated field, or an empty second field all yield no token. -/
def extractToken (authHeader : Option String) : Option String :=
  match authHeader with
  | none => none
  | some h =>
    match (h.splitOn " ").get? 1 with
    | none => none
    | some t => if t = "" then none else some t

/-- Outcome of the `authenticateToken` middleware: 401 when no token is
extracted, 403 when verification fails, or proceed to the handler with
the verified payload attached as `req.user`. -/
inductive AuthResult where
  | status401
  | status403
  | proceed (user : Payload)
deriving DecidableEq, Repr

/-- HTTP status sent by the middleware, with 0 standing for "fell
through to the protected handler". -/
def AuthResult.statusCode : AuthResult → Nat
  | .status401 => 401
  | .status403 => 403
  | .proceed _ => 0

/-- The `authenticateToken` middleware. `decode` abstracts the parsing
half of `jwt.verify`: turning the token string from the header back into
a structured token; a string that is not a well-formed token fails
verification, and a well-formed one is then checked against the secret
and the clock by `jwtVerify`. -/
def authenticateToken (decode : String → Option SignedToken) (secret : String) (now : Nat)
    (authHeader : Option String) : AuthResult :=
  match extractToken authHeader with
  | none => .status401
  | some s =>
    match decode s with
    | none => .status403
    | some t =>
      match jwtVerify t secret now with
      | none => .status403
      | some p => .proceed p

/-- Response of `POST /login`: `200` with a token and a user object, or
`400` with an error message. -/
inductive LoginResult where
  | ok (token : SignedToken) (username email : String)
  | badRequest (message : String)
deriving DecidableEq, Repr

/-- HTTP status of a login response. -/
def LoginResult.statusCode : LoginResult → Nat
  | .ok _ _ _ => 200
  | .badRequest _ => 400

/-- `users.find((user) => user.username === username)` in the login
handler. -/
def findUser (users : List User) (username : String) : Option User :=
  users.find? (fun u => u.username == username)

/-- The `POST /login` handler. `bcryptCompare` abstracts
`bcrypt.compare(password, user.password)`. The handler reads the store,
scans for the username, compares the password hash, and on success signs
a 1-hour token over `{ username: user.username }` and returns it with
the user's username and email. It never writes the file, so the file
state is returned unchanged. -/
def loginHandler (bcryptCompare : String → String → Bool) (secret : String) (now : Nat)
    (fs : FileState) (username password : String) : LoginResult × FileState :=
  let users := readUsers fs
  match findUser users username with
  | none => (.badRequest "Invalid username or password", fs)
  | some user =>
    if bcryptCompare password user.password then
      (.ok (jwtSign { username := user.username } secret now) user.username user.email, fs)
    else
      (.badRequest "Invalid username or password", fs)

/-- Response of `GET /protected-endpoint`: the middleware's 401 or 403,
or `200` with the fixed message and `req.user`. -/
inductive ProtectedResult where
  | status401
  | status403
  | ok (message : String) (user : Payload)
deriving DecidableEq, Repr

/-- HTTP status of a protected-route response. -/
def ProtectedResult.statusCode : ProtectedResult → Nat
  | .status401 => 401
  | .status403 => 403
  | .ok _ _ => 200

/-- The `GET /protected-endpoint` route: `authenticateToken` runs first,
and only when it proceeds does the handler run, echoing `req.user`. The
route never touches the file. -/
def protectedEndpoint (decode : String → Option SignedToken) (secret : String) (now : Nat)
    (authHeader : Option String) (fs : FileState) : ProtectedResult × FileState :=
  match authenticateToken decode secret now authHeader with
  | .status401 => (.status401, fs)
  | .status403 => (.status403, fs)
  | .proceed p => (.ok "This is a protected route" p, fs)

/-- Response of `PUT /update-profile` past the middleware: `404` when the
token's username is not in the store, otherwise `200`. -/
inductive UpdateResult where
  | notFound (message : String)
  | okUpdated (message : String)
deriving DecidableEq, Repr

/-- HTTP status of an update-profile response. -/
def UpdateResult.statusCode : UpdateResult → Nat
  | .notFound _ => 404
  | .okUpdated _ => 200

/-- `users.findIndex((user) => user.username === username)` in the
update-profile handler, with `none` for the JavaScript `-1`. -/
def findUserIndex (users : List User) (username : String) : Option Nat :=
  users.findIdx? (fun u => u.username == username)

/-- `users[userIndex].password = hashedPassword`: replace the password
field of the record at index `i`, leaving its other fields and every
other record alone. -/
def setPasswordAt (users : List User) (i : Nat) (hashed : String) : List User :=
  match users.get? i with
  | none => users
  | some u => users.set i { u with password := hashed }

/-- The `PUT /update-profile` handler body (after the middleware has
attached `req.user`, whose username is `tokenUsername`). `bcryptHash`
abstracts `bcrypt.hash(newPassword, 10)`. The handler reads the store,
locates the token's user, rewrites that user's password hash when a
truthy `newPassword` is supplied (a missing or empty string is falsy in
JavaScript), and always writes the resulting list back to the file
unless the user was not found. -/
def updateProfileHandler (bcryptHash : String → Nat → String) (tokenUsername : String)
    (newPassword : Option String) (fs : FileState) : UpdateResult × FileState :=
  let users := readUsers fs
  match findUserIndex users tokenUsername with
  | none => (.notFound "User not found", fs)
  | some i =>
    let users' :=
      match newPassword with
      | some np => if np = "" then users else setPasswordAt users i (bcryptHash np 10)
      | none => users
    (.okUpdated "Profile updated successfully", some users')

/-! Helper lemmas about linear scans. -/

/-- `List.find?` returns the first element satisfying the predicate. -/
theorem find?_first_match {α : Type} (p : α → Bool) :
    ∀ (l : List α) (u : α), l.find? p = some u →
      ∃ i : Nat, l[i]? = some u ∧ p u = true ∧
        ∀ (j : Nat) (v : α), j < i → l[j]? = some v → p v = false := by
  intro l
  induction l with
  | nil => intro u h; simp at h
  | cons a t ih =>
    intro u h
    by_cases hp : p a = true
    · rw [List.find?_cons_of_pos _ hp] at h
      obtain rfl : a = u := by injection h
      exact ⟨0, by simp, hp, fun j v hj => absurd hj (by omega)⟩
    · rw [List.find?_cons_of_neg _ hp] at h
      obtain ⟨i, hi, hu, hfirst⟩ := ih u h
      refine ⟨i + 1, by simpa using hi, hu, ?_⟩
      intro j v hj hv
      cases j with
      | zero =>
        rw [List.getElem?_cons_zero] at hv
        injection hv with hv
        subst hv
        simpa using hp
      | succ j' =>
        rw [List.getElem?_cons_succ] at hv
        exact hfirst j' v (by omega) hv

/-- `List.findIdx?` (with accumulator `s`) returns the position of the
first element satisfying the predicate. -/
theorem findIdx?_first_match {α : Type} (p : α → Bool) :
    ∀ (l : List α) (s i : Nat), l.findIdx? p s = some i →
      s ≤ i ∧ ∃ v : α, l[i - s]? = some v ∧ p v = true ∧
        ∀ (j : Nat) (w : α), j < i - s → l[j]? = some w → p w = false := by
  intro l
  induction l with
  | nil => intro s i h; simp [List.findIdx?_nil] at h
  | cons a t ih =>
    intro s i h
    rw [List.findIdx?_cons] at h
    by_cases hp : p a = true
    · rw [if_pos hp] at h
      obtain rfl : s = i := by injection h
      exact ⟨le_refl _, a, by simp, hp, fun j w hj => absurd hj (by omega)⟩
    · rw [if_neg hp] at h
      obtain ⟨hsi, v, hv, hpv, hfirst⟩ := ih (s + 1) i h
      refine ⟨by omega, v, ?_, hpv, ?_⟩
      · have hix : i - s = (i - (s + 1)) + 1 := by omega
        rw [hix, List.getElem?_cons_succ]
        exact hv
      · intro j w hj hw
        cases j with
        | zero =>
          rw [List.getElem?_cons_zero] at hw
          injection hw with hw
          subst hw
          simpa using hp
        | succ j' =>
          rw [List.getElem?_cons_succ] at hw
          exact hfirst j' w (by omega) hw

/-- C5: user lookup in both `/login` and `/update-profile` is a linear
scan: the record operated on is the first record in list order whose
username equals the target, and when no record matches, the lookup
reports no match. -/
theorem user_lookup_is_first_match_linear_scan (users : List User) (name : String) :
    (∀ u : User, findUser users name = some u →
      u.username = name ∧
      ∃ i : Nat, users[i]? = some u ∧
        ∀ (j : Nat) (v : User), j < i → users[j]? = some v → v.username ≠ name) ∧
    (findUser users name = none ↔ ∀ u ∈ users, u.username ≠ name) ∧
    (∀ i : Nat, findUserIndex users name = some i →
      ∃ u : User, users[i]? = some u ∧ u.username = name ∧
        ∀ (j : Nat) (v : User), j < i → users[j]? = some v → v.username ≠ name) ∧
    (findUserIndex users name = none ↔ ∀ u ∈ users, u.username ≠ name) := by
  refine ⟨?_, ?_, ?_, ?_⟩
  · intro u h
    simp only [findUser] at h
    have hbeq : (u.username == name) = true :=
      @List.find?_some User (fun u => u.username == name) u users h
    obtain ⟨i, hi, _, hfirst⟩ := find?_first_match _ users u h
    refine ⟨by simpa using hbeq, i, hi, ?_⟩
    intro j v hj hv
    have := hfirst j v hj hv
    simpa using this
  · rw [findUser, List.find?_eq_none]
    simp
  · intro i h
    simp only [findUserIndex] at h
    obtain ⟨-, v, hv, hpv, hfirst⟩ := findIdx?_first_match _ users 0 i h
    rw [Nat.sub_zero] at hv hfirst
    refine ⟨v, hv, by simpa using hpv, ?_⟩
    intro j w hj hw
    have := hfirst j w hj hw
    simpa using this
  · rw [findUserIndex, List.findIdx?_eq_none_iff]
    simp

/-- Witness for C5 at a concrete store and username. -/
theorem user_lookup_is_first_match_linear_scan_witness :
    findUser [{ username := "bob", password := "h1", email := "b@x" }] "alice" = none :=
  (user_lookup_is_first_match_linear_scan
    [{ username := "bob", password := "h1", email := "b@x" }] "alice").2.1.mpr (by decide)

/-- C1: for every login request whose username is found in the loaded
store and whose password passes the bcrypt comparison against the stored
hash, the handler responds with a token signed with the secret over that
username, expiring in 1 hour (3600 s), together with the record's
username and email, at status 200. -/
theorem login_success_issues_token (bc : String → String → Bool) (secret : String) (now : Nat)
    (fs : FileState) (un pw : String) (u : User)
    (hu : findUser (readUsers fs) un = some u)
    (hm : bc pw u.password = true) :
    loginHandler bc secret now fs un pw =
      (.ok (jwtSign { username := un } secret now) un u.email, fs) ∧
    (jwtSign { username := un } secret now).exp = now + 3600 ∧
    (jwtSign { username := un } secret now).payload.username = un ∧
    (jwtSign { username := un } secret now).secret = secret ∧
    (loginHandler bc secret now fs un pw).1.statusCode = 200 := by
  have huser : u.username = un := by
    have h2 := hu
    simp only [findUser] at h2
    simpa using (@List.find?_some User (fun v => v.username == un) u (readUsers fs) h2)
  have hmain : loginHandler bc secret now fs un pw =
      (.ok (jwtSign { username := un } secret now) un u.email, fs) := by
    simp [loginHandler, hu, hm, huser]
  exact ⟨hmain, rfl, rfl, rfl, by rw [hmain]; rfl⟩

/-- Witness for C1 at a concrete store and request. -/
theorem login_success_issues_token_witness :
    loginHandler (fun p h => p == h) "supersecretkey" 0
      (some [{ username := "alice", password := "pw", email := "a@x" }]) "alice" "pw" =
      (.ok (jwtSign { username := "alice" } "supersecretkey" 0) "alice" "a@x",
       some [{ username := "alice", password := "pw", email := "a@x" }]) :=
  (login_success_issues_token (fun p h => p == h) "supersecretkey" 0
    (some [{ username := "alice", password := "pw", email := "a@x" }]) "alice" "pw"
    { username := "alice", password := "pw", email := "a@x" } (by decide) (by decide)).1

/-- C2: when the username matches no record, or it matches a record but
the bcrypt comparison fails, the login response is status 400 with
message "Invalid username or password", and no token is issued. -/
theorem login_failure_responds_400 (bc : String → String → Bool) (secret : String) (now : Nat)
    (fs : FileState) (un pw : String)
    (h : findUser (readUsers fs) un = none ∨
      ∃ u : User, findUser (readUsers fs) un = some u ∧ bc pw u.password = false) :
    (loginHandler bc secret now fs un pw).1 = .badRequest "Invalid username or password" ∧
    (loginHandler bc secret now fs un pw).1.statusCode = 400 ∧
    ∀ (t : SignedToken) (a b : String), (loginHandler bc secret now fs un pw).1 ≠ .ok t a b := by
  have hmain : (loginHandler bc secret now fs un pw).1 =
      .badRequest "Invalid username or password" := by
    rcases h with h | ⟨u, hu, hm⟩
    · simp [loginHandler, h]
    · simp [loginHandler, hu, hm]
  refine ⟨hmain, by rw [hmain]; rfl, ?_⟩
  intro t a b hc
  rw [hmain] at hc
  exact LoginResult.noConfusion hc

/-- Witness for C2 at a concrete store and request. -/
theorem login_failure_responds_400_witness :
    (loginHandler (fun p h => p == h) "supersecretkey" 0
      (some [{ username := "bob", password := "h1", email := "b@x" }]) "alice" "pw").1 =
      .badRequest "Invalid username or password" :=
  (login_failure_responds_400 (fun p h => p == h) "supersecretkey" 0
    (some [{ username := "bob", password := "h1", email := "b@x" }]) "alice" "pw"
    (Or.inl (by decide))).1

/-- C9: a login that fails because the username is unknown and a login
that fails because the password does not match produce identical
responses: the same status 400 and the same body. -/
theorem login_failures_indistinguishable (bc : String → String → Bool) (secret : String)
    (now : Nat) (fs : FileState) (un1 pw1 un2 pw2 : String) (u : User)
    (h1 : findUser (readUsers fs) un1 = none)
    (h2 : findUser (readUsers fs) un2 = some u)
    (h3 : bc pw2 u.password = false) :
    (loginHandler bc secret now fs un1 pw1).1 = (loginHandler bc secret now fs un2 pw2).1 ∧
    (loginHandler bc secret now fs un1 pw1).1 = .badRequest "Invalid username or password" ∧
    (loginHandler bc secret now fs un1 pw1).1.statusCode = 400 ∧
    (loginHandler bc secret now fs un2 pw2).1.statusCode = 400 := by
  have e1 : (loginHandler bc secret now fs un1 pw1).1 =
      .badRequest "Invalid username or password" := by
    simp [loginHandler, h1]
  have e2 : (loginHandler bc secret now fs un2 pw2).1 =
      .badRequest "Invalid username or password" := by
    simp [loginHandler, h2, h3]
  exact ⟨e1.trans e2.symm, e1, by rw [e1]; rfl, by rw [e2]; rfl⟩

/-- Witness for C9 at a concrete store and two concrete requests. -/
theorem login_failures_indistinguishable_witness :
    (loginHandler (fun p h => p == h) "supersecretkey" 0
      (some [{ username := "bob", password := "h1", email := "b@x" }]) "alice" "x").1 =
    (loginHandler (fun p h => p == h) "supersecretkey" 0
      (some [{ username := "bob", password := "h1", email := "b@x" }]) "bob" "wrong").1 :=
  (login_failures_indistinguishable (fun p h => p == h) "supersecretkey" 0
    (some [{ username := "bob", password := "h1", email := "b@x" }]) "alice" "x" "bob" "wrong"
    { username := "bob", password := "h1", email := "b@x" }
    (by decide) (by decide) (by decide)).1

/-- C4: every token issued by the login handler, presented within its
1-hour lifetime, is accepted by verification under the same secret, and
the recovered payload carries the username that was signed. -/
theorem sign_verify_roundtrip (bc : String → String → Bool) (secret : String) (now : Nat)
    (fs : FileState) (un pw : String) (t : SignedToken) (a b : String) (fs' : FileState)
    (h : loginHandler bc secret now fs un pw = (.ok t a b, fs'))
    (now' : Nat) (hnow : now' < now + 3600) :
    jwtVerify t secret now' = some { username := un } := by
  cases hu : findUser (readUsers fs) un with
  | none => simp [loginHandler, hu] at h
  | some u =>
    have huser : u.username = un := by
      have h2 := hu
      simp only [findUser] at h2
      simpa using (@List.find?_some User (fun v => v.username == un) u (readUsers fs) h2)
    by_cases hm : bc pw u.password = true
    · have h1 : (loginHandler bc secret now fs un pw).1 =
          LoginResult.ok (jwtSign { username := u.username } secret now) u.username u.email := by
        simp [loginHandler, hu, hm]
      rw [h] at h1
      injection h1 with ht ha hb
      rw [ht, huser, jwtVerify]
      simp [jwtSign, hnow]
    · have h1 : (loginHandler bc secret now fs un pw).1 =
          LoginResult.badRequest "Invalid username or password" := by
        simp [loginHandler, hu, hm]
      rw [h] at h1
      exact LoginResult.noConfusion h1

/-- Witness for C4 at a concrete issued token and a later clock. -/
theorem sign_verify_roundtrip_witness :
    jwtVerify (jwtSign { username := "alice" } "supersecretkey" 0) "supersecretkey" 10 =
      some { username := "alice" } :=
  sign_verify_roundtrip (fun p h => p == h) "supersecretkey" 0
    (some [{ username := "alice", password := "pw", email := "a@x" }]) "alice" "pw"
    (jwtSign { username := "alice" } "supersecretkey" 0) "alice" "a@x"
    (some [{ username := "alice", password := "pw", email := "a@x" }]) (by decide) 10 (by decide)

/-- C3: on a guarded route, no extractable token yields 401; an
extracted token that fails verification (malformed, wrong secret, or
expired) yields 403; and the protected handler runs only when
verification succeeds, receiving the verified payload as `req.user`. -/
theorem token_middleware_gate (decode : String → Option SignedToken) (secret : String)
    (now : Nat) (authHeader : Option String) (fs : FileState) :
    (extractToken authHeader = none →
      authenticateToken decode secret now authHeader = .status401 ∧
      protectedEndpoint decode secret now authHeader fs = (.status401, fs) ∧
      (protectedEndpoint decode secret now authHeader fs).1.statusCode = 401) ∧
    (∀ s : String, extractToken authHeader = some s → decode s = none →
      authenticateToken decode secret now authHeader = .status403 ∧
      protectedEndpoint decode secret now authHeader fs = (.status403, fs) ∧
      (protectedEndpoint decode secret now authHeader fs).1.statusCode = 403) ∧
    (∀ (s : String) (t : SignedToken), extractToken authHeader = some s → decode s = some t →
      jwtVerify t secret now = none →
      authenticateToken decode secret now authHeader = .status403 ∧
      protectedEndpoint decode secret now authHeader fs = (.status403, fs) ∧
      (protectedEndpoint decode secret now authHeader fs).1.statusCode = 403) ∧
    (∀ (s : String) (t : SignedToken) (p : Payload), extractToken authHeader = some s →
      decode s = some t → jwtVerify t secret now = some p →
      authenticateToken decode secret now authHeader = .proceed p ∧
      protectedEndpoint decode secret now authHeader fs =
        (.ok "This is a protected route" p, fs)) := by
  refine ⟨?_, ?_, ?_, ?_⟩
  · intro he
    have h1 : authenticateToken decode secret now authHeader = .status401 := by
      simp [authenticateToken, he]
    exact ⟨h1, by simp [protectedEndpoint, h1], by simp [protectedEndpoint, h1]; rfl⟩
  · intro s he hd
    have h1 : authenticateToken decode secret now authHeader = .status403 := by
      simp [authenticateToken, he, hd]
    exact ⟨h1, by simp [protectedEndpoint, h1], by simp [protectedEndpoint, h1]; rfl⟩
  · intro s t he hd hv
    have h1 : authenticateToken decode secret now authHeader = .status403 := by
      simp [authenticateToken, he, hd, hv]
    exact ⟨h1, by simp [protectedEndpoint, h1], by simp [protectedEndpoint, h1]; rfl⟩
  · intro s t p he hd hv
    have h1 : authenticateToken decode secret now authHeader = .proceed p := by
      simp [authenticateToken, he, hd, hv]
    exact ⟨h1, by simp [protectedEndpoint, h1]⟩

/-- Witness for C3 with a missing Authorization header. -/
theorem token_middleware_gate_witness :
    authenticateToken (fun _ => none) "supersecretkey" 0 none = .status401 :=
  ((token_middleware_gate (fun _ => none) "supersecretkey" 0 none none).1 rfl).1

/-- C7: `POST /login` and `GET /protected-endpoint` never modify the
user store: the file state after handling either request equals the file
state before it. -/
theorem readonly_routes_preserve_store (bc : String → String → Bool)
    (decode : String → Option SignedToken) (secret : String) (now : Nat)
    (fs : FileState) (un pw : String) (authHeader : Option String) :
    (loginHandler bc secret now fs un pw).2 = fs ∧
    (protectedEndpoint decode secret now authHeader fs).2 = fs := by
  constructor
  · simp only [loginHandler]
    split
    · rfl
    · split <;> rfl
  · unfold protectedEndpoint
    split <;> rfl

/-- C8: when reading or parsing the user file fails, `readUsers` returns
the empty list, every login request answers 400, and every authenticated
update-profile request answers 404; no handler fails. -/
theorem corrupt_store_fallback (bc : String → String → Bool) (secret : String) (now : Nat)
    (un pw : String) (hash : String → Nat → String) (name : String) (np : Option String) :
    readUsers none = [] ∧
    loginHandler bc secret now none un pw =
      (.badRequest "Invalid username or password", none) ∧
    (loginHandler bc secret now none un pw).1.statusCode = 400 ∧
    updateProfileHandler hash name np none = (.notFound "User not found", none) ∧
    (updateProfileHandler hash name np none).1.statusCode = 404 :=
  ⟨rfl, rfl, rfl, rfl, rfl⟩

/-- C10: an authenticated update-profile request whose token username is
in the store but which supplies no new password still rewrites the user
file, with content equal to the loaded list, and answers 200 with
message "Profile updated successfully". -/
theorem update_profile_without_new_password (hash : String → Nat → String)
    (name : String) (fs : FileState) (i : Nat)
    (hi : findUserIndex (readUsers fs) name = some i) :
    updateProfileHandler hash name none fs =
      (.okUpdated "Profile updated successfully", some (readUsers fs)) ∧
    (updateProfileHandler hash name none fs).1.statusCode = 200 := by
  have hmain : updateProfileHandler hash name none fs =
      (.okUpdated "Profile updated successfully", some (readUsers fs)) := by
    simp [updateProfileHandler, hi]
  exact ⟨hmain, by rw [hmain]; rfl⟩

/-- Witness for C10 at a concrete store and token username. -/
theorem update_profile_without_new_password_witness :
    updateProfileHandler (fun s _ => s) "bob" none
      (some [{ username := "bob", password := "h1", email := "b@x" }]) =
      (.okUpdated "Profile updated successfully",
       some [{ username := "bob", password := "h1", email := "b@x" }]) :=
  (update_profile_without_new_password (fun s _ => s) "bob"
    (some [{ username := "bob", password := "h1", email := "b@x" }]) 0 (by decide)).1

/-- C6: an authenticated update-profile request with a new password for
a matched user rewrites the file so that only the matched record's
password changes (to the bcrypt hash of the new password); its username
and email and every other record are untouched, and the list length is
preserved. -/
theorem update_profile_frame (hash : String → Nat → String) (name np : String)
    (fs : FileState) (i : Nat)
    (hi : findUserIndex (readUsers fs) name = some i)
    (hnp : np ≠ "") :
    (updateProfileHandler hash name (some np) fs).1 =
      .okUpdated "Profile updated successfully" ∧
    ∃ (u : User) (users' : List User),
      (readUsers fs)[i]? = some u ∧ u.username = name ∧
      (updateProfileHandler hash name (some np) fs).2 = some users' ∧
      users'.length = (readUsers fs).length ∧
      (∀ j : Nat, j ≠ i → users'[j]? = (readUsers fs)[j]?) ∧
      users'[i]? = some { username := u.username, password := hash np 10, email := u.email } := by
  obtain ⟨-, u, hu, hpu, -⟩ := by
    have h2 := hi
    simp only [findUserIndex] at h2
    exact findIdx?_first_match (fun v => v.username == name) (readUsers fs) 0 i h2
  rw [Nat.sub_zero] at hu
  have hlen : i < (readUsers fs).length := (List.getElem?_eq_some.mp hu).choose
  have hset : setPasswordAt (readUsers fs) i (hash np 10) =
      (readUsers fs).set i { u with password := hash np 10 } := by
    rw [setPasswordAt, List.get?_eq_getElem?, hu]
  have hmain : updateProfileHandler hash name (some np) fs =
      (.okUpdated "Profile updated successfully",
       some ((readUsers fs).set i { u with password := hash np 10 })) := by
    simp [updateProfileHandler, hi, hnp, hset]
  refine ⟨by rw [hmain], u, (readUsers fs).set i { u with password := hash np 10 },
    hu, by simpa using hpu, by rw [hmain], List.length_set .., ?_, ?_⟩
  · intro j hj
    exact List.getElem?_set_ne (Ne.symm hj)
  · exact List.getElem?_set_self hlen

/-- Witness for C6 at a concrete two-record store. -/
theorem update_profile_frame_witness :
    (updateProfileHandler (fun s _ => s) "bob" (some "newpw")
      (some [{ username := "al", password := "h0", email := "a@x" },
             { username := "bob", password := "h1", email := "b@x" }])).1 =
      .okUpdated "Profile updated successfully" :=
  (update_profile_frame (fun s _ => s) "bob" "newpw"
    (some [{ username := "al", password := "h0", email := "a@x" },
           { username := "bob", password := "h1", email := "b@x" }]) 1
    (by decide) (by decide)).1
